import Mathlib

/-!
Verification development for the `ava.py` orchestrator.

The Python source (src/python/ava.py) discovers Android devices, clones a
base option set per device serial, and runs a registered test against each
resulting configuration, reporting results.  We embed the data model and the
control flow of `main` (after argument parsing, which is out of scope) as
pure Lean functions.  External collaborators (device enumeration, the test
registry, `ava_common.get_android_serial`, whether the output destination can
be opened) are parameters of an environment record.  Observable behaviour —
prints, file writes, the process exit — is modelled as a trace of events plus
a run result, where `RunResult.ok` denotes process exit status 0 and every
other constructor denotes a nonzero exit (a `sys.exit(-1)`, a failed
`assert`, an uncaught `KeyError`, an uncaught `IOError`).
-/

/-- A nested sub-result inside a test outcome: a Python dict whose
`"retcode"` key may be absent (`none`), plus its remaining content
abstracted as an opaque payload string (its printed representation). -/
structure SubResult where
  retcode : Option Int
  payload : String
deriving DecidableEq, Repr

/-- The dict returned by one test invocation (`results_dict` in `main`):
the `"retcode"`, `"backtrace"` and `"results"` keys may each be absent
(`none`); `dict.get` with default `None` makes a key mapped to `None`
indistinguishable from an absent key, so one `Option` layer suffices.
The rest of the dict is abstracted as an opaque payload string. -/
structure TestOutcome where
  retcode : Option Int
  backtrace : Option String
  results : Option (List SubResult)
  payload : String
deriving DecidableEq, Repr

/-- The parsed CLI options (the `options` namespace produced by
`get_options`), as consumed by `main`. -/
structure Options where
  debug : Int
  dry_run : Bool
  android_serial : Option String
  encoder : Option String
  test : Option String
  test_list : Bool
  infile_list : Option (List String)
  outfile : Option String
deriving DecidableEq, Repr

/-- The `AvaConfig` object built per device (fields set by
`AvaConfig.__init__`). -/
structure AvaConfig where
  debug : Int
  dry_run : Bool
  android_serial : Option String
  encoder : Option String
  test : Option String
  infile_list : List String
  outfile : Option String
deriving DecidableEq, Repr

/-- External collaborators of `main`, injected as parameters:
`getAllSerials` models `ava_common.get_all_serials`, `getAndroidSerial`
models `ava_common.get_android_serial`, `avaTests` models the
`ava_tests.AVA_TESTS` dict as an association list from test name to test
function, and `openOk` models whether `open(options.outfile, "w")`
succeeds (false makes it raise `IOError`). -/
structure Env where
  getAllSerials : Option String → List String
  getAndroidSerial : Option String → Option String
  avaTests : List (String × (AvaConfig → TestOutcome))
  scriptDir : String
  openOk : Bool

/-- Observable actions of one run, in order: prints to stdout and writes to
the output destination. -/
inductive Event where
  | listTests (names : List String)
  | debugPrint
  | noDevices
  | buildConfig (serial : String)
  | runTest (name : String)
  | printBacktrace (s : String)
  | printSubResult (r : SubResult)
  | printOutcome (o : TestOutcome)
  | write (dest : String) (o : TestOutcome)
deriving DecidableEq, Repr

/-- How the process ends.  `ok` is exit status 0 (main returns normally);
every other constructor is a nonzero exit: `exitFatal` is the explicit
`sys.exit(-1)`, `assertionError` the failed `assert` on an unknown test
name, `keyError` an uncaught `KeyError` from indexing a missing
`"retcode"`, and `ioError` an uncaught `IOError` from `open`. -/
inductive RunResult where
  | ok
  | exitFatal
  | assertionError (testName : String)
  | keyError
  | ioError
deriving DecidableEq, Repr

/-- `TEST_INPUT_MP4 = f"{SCRIPT_DIR}/../vid/johnny.1280x720.60fps.264.mp4"`. -/
def TEST_INPUT_MP4 (scriptDir : String) : String :=
  scriptDir ++ "/../vid/johnny.1280x720.60fps.264.mp4"

/-- `AvaConfig.__init__(self, options)`: copies each option field, resolves
the serial through `ava_common.get_android_serial`, and defaults a missing
input-file list to `[TEST_INPUT_MP4]`. -/
def AvaConfig.init (env : Env) (options : Options) : AvaConfig :=
  { debug := options.debug
    dry_run := options.dry_run
    android_serial := env.getAndroidSerial options.android_serial
    encoder := options.encoder
    test := options.test
    infile_list := options.infile_list.getD [TEST_INPUT_MP4 env.scriptDir]
    outfile := options.outfile }

/-- `replace_serial(options, serial)` on immutable values: `copy.deepcopy`
is the identity on a pure value, after which the serial field is
overwritten.  (The aliasing content of the deep copy is modelled
separately with an explicit store, below.) -/
def replace_serial (options : Options) (serial : String) : Options :=
  { options with android_serial := some serial }

/-- `if options.outfile is None or options.outfile == "-": options.outfile
= "/dev/fd/1"`. -/
def resolveOutfile (o : Option String) : String :=
  match o with
  | none => "/dev/fd/1"
  | some s => if s = "-" then "/dev/fd/1" else s

/-- The options value after `main` has normalized the output destination. -/
def resolveOpts (options : Options) : Options :=
  { options with outfile := some (resolveOutfile options.outfile) }

/-- The per-device config list
`[AvaConfig(replace_serial(options, serial)) for serial in devices]`. -/
def buildConfigs (env : Env) (options : Options) (devices : List String) :
    List AvaConfig :=
  devices.map (fun serial => AvaConfig.init env (replace_serial options serial))

/-- The inner loop over `results_dict["results"]` on a fatal outcome:
prints every sub-result whose `"retcode"` is nonzero; indexing a
sub-result missing `"retcode"` raises `KeyError` (second component true),
discarding the prints the loop would still have made. -/
def printFailingSubs : List SubResult → List Event × Bool
  | [] => ([], false)
  | r :: rs =>
    match r.retcode with
    | none => ([], true)
    | some rc =>
      ((if rc ≠ 0 then [Event.printSubResult r] else []) ++
          (printFailingSubs rs).1,
        (printFailingSubs rs).2)

/-- The fatal branch of `main`'s loop (`results_dict["retcode"] == -1`):
print the backtrace or the `"No backtrace"` placeholder, then either the
failing nested sub-results or the whole dict, then `sys.exit(-1)` (or die
with `KeyError` if a nested sub-result lacks `"retcode"`). -/
def fatalReport (o : TestOutcome) : List Event × RunResult :=
  let backtrace := o.backtrace.getD "No backtrace"
  match o.results with
  | some rs =>
    (Event.printBacktrace backtrace :: (printFailingSubs rs).1,
      if (printFailingSubs rs).2 then RunResult.keyError else RunResult.exitFatal)
  | none =>
    ([Event.printBacktrace backtrace, Event.printOutcome o], RunResult.exitFatal)

/-- The per-device loop of `main` (`for ava_config in ava_configs`):
invoke the test, inspect `results_dict["retcode"]`, on the fatal sentinel
report and exit, otherwise serialize the dict to the output destination
(overwriting it) and continue with the next device. -/
def processConfigs (env : Env) (f : AvaConfig → TestOutcome)
    (testName : String) (outfile : String) :
    List AvaConfig → List Event × RunResult
  | [] => ([], RunResult.ok)
  | cfg :: rest =>
    let rd := f cfg
    match rd.retcode with
    | none => ([Event.runTest testName], RunResult.keyError)
    | some rc =>
      if rc = -1 then
        (Event.runTest testName :: (fatalReport rd).1, (fatalReport rd).2)
      else
        if env.openOk then
          (Event.runTest testName :: Event.write outfile rd ::
              (processConfigs env f testName outfile rest).1,
            (processConfigs env f testName outfile rest).2)
        else
          ([Event.runTest testName], RunResult.ioError)

/-- `main(argv)` after option parsing: the test-list branch, outfile
normalization, the debug print, device enumeration, per-device config
building, the unknown-test assertion, and the per-device loop. -/
def runMain (env : Env) (options : Options) : List Event × RunResult :=
  if options.test_list then
    ([Event.listTests (env.avaTests.map Prod.fst)], RunResult.ok)
  else
    let options := resolveOpts options
    let evDbg := if options.debug > 0 then [Event.debugPrint] else []
    let devices := env.getAllSerials options.android_serial
    let evNoDev := if devices.length = 0 then [Event.noDevices] else []
    let evBuild := devices.map Event.buildConfig
    let configs := buildConfigs env options devices
    match options.test with
    | none => (evDbg ++ evNoDev ++ evBuild, RunResult.ok)
    | some t =>
      match env.avaTests.lookup t with
      | none => (evDbg ++ evNoDev ++ evBuild, RunResult.assertionError t)
      | some f =>
        (evDbg ++ evNoDev ++ evBuild ++
            (processConfigs env f t (options.outfile.getD "") configs).1,
          (processConfigs env f t (options.outfile.getD "") configs).2)

/-- The outcomes written to the output destination, in write order. -/
def writtenOutcomes : List Event → List TestOutcome
  | [] => []
  | Event.write _ o :: evs => o :: writtenOutcomes evs
  | _ :: evs => writtenOutcomes evs

/-- The content of the output destination once the run ends: each write
opens the file with mode `"w"`, truncating it, so only the last written
outcome survives. -/
def finalFileContent (evs : List Event) : Option TestOutcome :=
  (writtenOutcomes evs).getLast?

/-!
Store model for the deep-copy behaviour of `replace_serial`.

Python option namespaces hold their list-typed field (`infile_list`) by
reference, so mutation is observable across aliases.  To state the
deep-copy property of `copy.deepcopy` we make the heap explicit: a store of
list cells addressed by allocation index, and an options record holding an
address instead of a list.
-/

/-- Heap of list cells; an address is an index into `cells`. -/
structure Store where
  cells : List (List String)
deriving DecidableEq, Repr

/-- Allocate a fresh cell holding `v`; returns the new store and the fresh
address. -/
def Store.alloc (st : Store) (v : List String) : Store × Nat :=
  ({ cells := st.cells ++ [v] }, st.cells.length)

/-- Read the list stored at address `a`. -/
def Store.read (st : Store) (a : Nat) : List String :=
  st.cells.getD a []

/-- In-place mutation of the list stored at address `a` (e.g. a Python
`options.infile_list.append(...)`). -/
def Store.mutate (st : Store) (a : Nat) (v : List String) : Store :=
  { cells := st.cells.set a v }

/-- `Options` with the list-typed field held by reference into a `Store`,
mirroring Python object identity for `infile_list`. -/
structure OptionsRef where
  debug : Int
  dry_run : Bool
  android_serial : Option String
  encoder : Option String
  test : Option String
  test_list : Bool
  infile_ref : Option Nat
  outfile : Option String
deriving DecidableEq, Repr

/-- `copy.deepcopy(options)`: every scalar field is copied verbatim, and
the referenced list (when present) is copied into a freshly allocated
cell, so the copy shares no mutable state with the original. -/
def deepcopyOptions (st : Store) (o : OptionsRef) : Store × OptionsRef :=
  match o.infile_ref with
  | none => (st, o)
  | some a =>
    let (st', a') := st.alloc (st.read a)
    (st', { o with infile_ref := some a' })

/-- `replace_serial(options, serial)` over the store model: deep-copy the
options, then overwrite the serial field of the copy. -/
def replaceSerialRef (st : Store) (options : OptionsRef) (serial : String) :
    Store × OptionsRef :=
  let (st', o') := deepcopyOptions st options
  (st', { o' with android_serial := some serial })

/-!  Concrete environments used to evaluate the definitions on closed
inputs.  `mkEnv` fixes the external collaborators to simple total
functions. -/

/-- A concrete environment whose device enumerator always returns
`serials`, whose serial resolution is the identity, and whose registry and
output-destination behaviour are as given. -/
def mkEnv (serials : List String)
    (tests : List (String × (AvaConfig → TestOutcome))) (openOk : Bool) : Env :=
  { getAllSerials := fun _ => serials
    getAndroidSerial := fun s => s
    avaTests := tests
    scriptDir := "/ava"
    openOk := openOk }

/-- Default CLI options: every field at its `default_values` entry. -/
def optsBase : Options :=
  { debug := 0, dry_run := false, android_serial := none, encoder := none,
    test := none, test_list := false, infile_list := none, outfile := none }

/-- A successful test outcome distinguished by its payload. -/
def softOutcome (p : String) : TestOutcome :=
  { retcode := some 0, backtrace := none, results := none, payload := p }

/-- A test function returning a distinct successful outcome per serial. -/
def softBySerial : AvaConfig → TestOutcome := fun cfg =>
  softOutcome (cfg.android_serial.getD "?")

/-- A fatal outcome (retcode `-1`) carrying a backtrace and no nested
results. -/
def fatalOutcomeA : TestOutcome :=
  { retcode := some (-1), backtrace := some "boom", results := none,
    payload := "pA" }

/-- A test function fatal on serial `"A"` and successful elsewhere. -/
def fatalOnA : AvaConfig → TestOutcome := fun cfg =>
  if cfg.android_serial = some "A" then fatalOutcomeA else softOutcome "pB"

/-!  Helper lemmas. -/

theorem resolveOpts_test (o : Options) : (resolveOpts o).test = o.test := rfl

theorem resolveOpts_android_serial (o : Options) :
    (resolveOpts o).android_serial = o.android_serial := rfl

theorem resolveOpts_dry_run (o : Options) :
    (resolveOpts o).dry_run = o.dry_run := rfl

theorem resolveOpts_debug (o : Options) : (resolveOpts o).debug = o.debug := rfl

/-- The events `main` emits before the per-device loop: the optional debug
print, the `"No connected devices"` report, and one config construction
(with its `get_android_serial` call) per enumerated device. -/
def preTrace (env : Env) (options : Options) : List Event :=
  (if options.debug > 0 then [Event.debugPrint] else []) ++
    (if (env.getAllSerials options.android_serial).length = 0 then
      [Event.noDevices] else []) ++
    (env.getAllSerials options.android_serial).map Event.buildConfig

theorem runMain_no_test (env : Env) (options : Options)
    (hTL : options.test_list = false) (ht : options.test = none) :
    runMain env options = (preTrace env options, RunResult.ok) := by
  simp only [runMain, hTL, Bool.false_eq_true, if_false, resolveOpts_test,
    resolveOpts_android_serial, resolveOpts_debug, ht, preTrace]

theorem runMain_unknown_test (env : Env) (options : Options) (t : String)
    (hTL : options.test_list = false) (ht : options.test = some t)
    (hreg : env.avaTests.lookup t = none) :
    runMain env options = (preTrace env options, RunResult.assertionError t) := by
  simp only [runMain, hTL, Bool.false_eq_true, if_false, resolveOpts_test,
    resolveOpts_android_serial, resolveOpts_debug, ht, hreg, preTrace]

theorem runMain_known_test (env : Env) (options : Options) (t : String)
    (f : AvaConfig → TestOutcome)
    (hTL : options.test_list = false) (ht : options.test = some t)
    (hreg : env.avaTests.lookup t = some f) :
    runMain env options =
      (preTrace env options ++
          (processConfigs env f t (resolveOutfile options.outfile)
            (buildConfigs env (resolveOpts options)
              (env.getAllSerials options.android_serial))).1,
        (processConfigs env f t (resolveOutfile options.outfile)
          (buildConfigs env (resolveOpts options)
            (env.getAllSerials options.android_serial))).2) := by
  simp only [runMain, hTL, Bool.false_eq_true, if_false, resolveOpts_test,
    resolveOpts_android_serial, resolveOpts_debug, ht, hreg, preTrace,
    List.append_assoc, Option.getD_some, resolveOpts]

theorem preTrace_no_runTest (env : Env) (options : Options) (n : String) :
    Event.runTest n ∉ preTrace env options := by
  intro h
  simp only [preTrace, List.mem_append, List.mem_map] at h
  rcases h with (h | h) | h
  · split at h <;> simp at h
  · split at h <;> simp at h
  · obtain ⟨s, _, hs⟩ := h
    exact Event.noConfusion hs

theorem preTrace_no_write (env : Env) (options : Options) (d : String)
    (o : TestOutcome) : Event.write d o ∉ preTrace env options := by
  intro h
  simp only [preTrace, List.mem_append, List.mem_map] at h
  rcases h with (h | h) | h
  · split at h <;> simp at h
  · split at h <;> simp at h
  · obtain ⟨s, _, hs⟩ := h
    exact Event.noConfusion hs

theorem preTrace_buildConfig_mem (env : Env) (options : Options) (s : String)
    (hs : s ∈ env.getAllSerials options.android_serial) :
    Event.buildConfig s ∈ preTrace env options := by
  simp only [preTrace, List.mem_append, List.mem_map]
  exact Or.inr ⟨s, hs, rfl⟩

theorem getD_append_left {α : Type} :
    ∀ (xs ys : List α) (a : Nat) (d : α), a < xs.length →
      (xs ++ ys).getD a d = xs.getD a d
  | [], _, a, _, h => absurd h (by simp)
  | _ :: _, _, 0, _, _ => rfl
  | _ :: xs, ys, a + 1, d, h =>
    getD_append_left xs ys a d (Nat.lt_of_succ_lt_succ h)

theorem getD_concat_self {α : Type} :
    ∀ (xs : List α) (v d : α), (xs ++ [v]).getD xs.length d = v
  | [], _, _ => rfl
  | _ :: xs, v, d => getD_concat_self xs v d

theorem getD_set_ne {α : Type} :
    ∀ (xs : List α) (i j : Nat) (v d : α), i ≠ j →
      (xs.set i v).getD j d = xs.getD j d
  | [], _, _, _, _, _ => rfl
  | _ :: _, 0, 0, _, _, h => absurd rfl h
  | _ :: _, 0, _ + 1, _, _, _ => rfl
  | _ :: _, _ + 1, 0, _, _, _ => rfl
  | _ :: xs, i + 1, j + 1, v, d, h =>
    getD_set_ne xs i j v d (fun hh => h (congrArg Nat.succ hh))

theorem writtenOutcomes_append (xs ys : List Event) :
    writtenOutcomes (xs ++ ys) = writtenOutcomes xs ++ writtenOutcomes ys := by
  induction xs with
  | nil => rfl
  | cons e xs ih => cases e <;> simp [writtenOutcomes, ih]

theorem writtenOutcomes_map_buildConfig (devices : List String) :
    writtenOutcomes (devices.map Event.buildConfig) = [] := by
  induction devices with
  | nil => rfl
  | cons d ds ih => simpa [writtenOutcomes] using ih

theorem preTrace_written (env : Env) (options : Options) :
    writtenOutcomes (preTrace env options) = [] := by
  simp only [preTrace, writtenOutcomes_append, writtenOutcomes_map_buildConfig,
    List.append_nil]
  split <;> split <;> rfl

theorem fatalReport_ne_ok (o : TestOutcome) :
    (fatalReport o).2 ≠ RunResult.ok := by
  unfold fatalReport
  cases o.results with
  | none => simp
  | some rs =>
    cases h : printFailingSubs rs with
    | mk evs err => cases err <;> simp [h]

theorem printFailingSubs_all_some :
    ∀ rs : List SubResult, (∀ r ∈ rs, (r.retcode).isSome = true) →
      printFailingSubs rs =
        ((rs.filter fun r => r.retcode ≠ some 0).map Event.printSubResult, false)
  | [], _ => rfl
  | r :: rs, h => by
    obtain ⟨rc, hrc⟩ :=
      Option.isSome_iff_exists.mp (h r (List.mem_cons_self r rs))
    have ih :=
      printFailingSubs_all_some rs (fun x hx => h x (List.mem_cons_of_mem r hx))
    by_cases h0 : rc = 0 <;>
      simp [printFailingSubs, hrc, ih, List.filter_cons, h0]

theorem printFailingSubs_missing_key :
    ∀ rs : List SubResult, (∃ r ∈ rs, r.retcode = none) →
      (printFailingSubs rs).2 = true
  | r :: rs, h => by
    rcases h with ⟨x, hx, hnone⟩
    rcases List.mem_cons.mp hx with hh | hh
    · subst hh
      simp [printFailingSubs, hnone]
    · cases hrc : r.retcode with
      | none => simp [printFailingSubs, hrc]
      | some rc =>
        have ih := printFailingSubs_missing_key rs ⟨x, hh, hnone⟩
        simp [printFailingSubs, hrc, ih]

/-- C2 (amended): once the test invocation for the head device returns the
fatal sentinel `-1`, processing of the remaining devices never happens —
the loop behaves exactly as if the later devices were absent — and the
run does not exit with status 0.  (The configs of the later devices were
already built before the loop started; see the counterexample.) -/
theorem fatal_sentinel_halts_loop (env : Env) (f : AvaConfig → TestOutcome)
    (t out : String) (cfg : AvaConfig) (rest : List AvaConfig)
    (h : (f cfg).retcode = some (-1)) :
    processConfigs env f t out (cfg :: rest) = processConfigs env f t out [cfg] ∧
      (processConfigs env f t out (cfg :: rest)).2 ≠ RunResult.ok := by
  have hstep : processConfigs env f t out (cfg :: rest) =
      (Event.runTest t :: (fatalReport (f cfg)).1, (fatalReport (f cfg)).2) := by
    simp [processConfigs, h]
  have hone : processConfigs env f t out [cfg] =
      (Event.runTest t :: (fatalReport (f cfg)).1, (fatalReport (f cfg)).2) := by
    simp [processConfigs, h]
  refine ⟨hstep.trans hone.symm, ?_⟩
  rw [hstep]
  exact fatalReport_ne_ok (f cfg)

/-- C2 (amended) witness at a concrete input: two configs, head fatal. -/
theorem fatal_sentinel_halts_loop_witness :
    processConfigs (mkEnv ["A", "B"] [("t", fatalOnA)] true) fatalOnA "t" "/dev/fd/1"
        [AvaConfig.init (mkEnv ["A", "B"] [("t", fatalOnA)] true)
            (replace_serial (resolveOpts optsBase) "A"),
          AvaConfig.init (mkEnv ["A", "B"] [("t", fatalOnA)] true)
            (replace_serial (resolveOpts optsBase) "B")] =
        processConfigs (mkEnv ["A", "B"] [("t", fatalOnA)] true) fatalOnA "t" "/dev/fd/1"
          [AvaConfig.init (mkEnv ["A", "B"] [("t", fatalOnA)] true)
              (replace_serial (resolveOpts optsBase) "A")] ∧
      (processConfigs (mkEnv ["A", "B"] [("t", fatalOnA)] true) fatalOnA "t" "/dev/fd/1"
          [AvaConfig.init (mkEnv ["A", "B"] [("t", fatalOnA)] true)
              (replace_serial (resolveOpts optsBase) "A"),
            AvaConfig.init (mkEnv ["A", "B"] [("t", fatalOnA)] true)
              (replace_serial (resolveOpts optsBase) "B")]).2 ≠ RunResult.ok :=
  fatal_sentinel_halts_loop _ fatalOnA "t" "/dev/fd/1" _ _ (by decide)

/-- C3: on a fatal outcome (retcode `-1`) whose nested sub-results, if
any, all carry a `"retcode"` key, the loop prints the outcome's backtrace
(or the `"No backtrace"` placeholder when absent), then exactly the nested
sub-results with nonzero return code when a nested list is present and the
whole outcome otherwise, and terminates the run with the nonzero
`sys.exit(-1)`. -/
theorem fatal_outcome_report (env : Env) (f : AvaConfig → TestOutcome)
    (t out : String) (cfg : AvaConfig) (rest : List AvaConfig)
    (h1 : (f cfg).retcode = some (-1))
    (h2 : ∀ r ∈ ((f cfg).results.getD []), (r.retcode).isSome = true) :
    processConfigs env f t out (cfg :: rest) =
      (Event.runTest t ::
          Event.printBacktrace ((f cfg).backtrace.getD "No backtrace") ::
          (match (f cfg).results with
            | some rs =>
              (rs.filter fun r => r.retcode ≠ some 0).map Event.printSubResult
            | none => [Event.printOutcome (f cfg)]),
        RunResult.exitFatal) := by
  have hstep : processConfigs env f t out (cfg :: rest) =
      (Event.runTest t :: (fatalReport (f cfg)).1, (fatalReport (f cfg)).2) := by
    simp [processConfigs, h1]
  rw [hstep]
  cases hres : (f cfg).results with
  | none => simp [fatalReport, hres]
  | some rs =>
    have hall : ∀ r ∈ rs, (r.retcode).isSome = true := by
      intro r hr
      exact h2 r (by simpa [hres] using hr)
    simp [fatalReport, hres, printFailingSubs_all_some rs hall]

/-- C3 witness: a fatal outcome with backtrace `"bad"` and nested
sub-results with retcodes `0` and `2` prints exactly the second. -/
theorem fatal_outcome_report_witness :
    processConfigs (mkEnv ["A"] [] true)
        (fun _ =>
          { retcode := some (-1), backtrace := some "bad",
            results := some [{ retcode := some 0, payload := "s0" },
              { retcode := some 2, payload := "s2" }],
            payload := "w" })
        "t" "/dev/fd/1" [AvaConfig.init (mkEnv ["A"] [] true) optsBase] =
      ([Event.runTest "t", Event.printBacktrace "bad",
          Event.printSubResult { retcode := some 2, payload := "s2" }],
        RunResult.exitFatal) :=
  fatal_outcome_report (mkEnv ["A"] [] true) _ "t" "/dev/fd/1" _ []
    (by decide) (by decide)

/-- C4: a non-fatal return code (any code other than the sentinel `-1`,
including nonzero soft failures) makes the loop write the outcome to the
output destination and continue with the remaining devices unchanged; in
particular a soft failure alone ends the run with exit status 0. -/
theorem soft_failure_recorded_continues (env : Env)
    (f : AvaConfig → TestOutcome) (t out : String) (cfg : AvaConfig)
    (rest : List AvaConfig) (rc : Int) (hopen : env.openOk = true)
    (h1 : (f cfg).retcode = some rc) (h2 : rc ≠ -1) :
    processConfigs env f t out (cfg :: rest) =
      (Event.runTest t :: Event.write out (f cfg) ::
          (processConfigs env f t out rest).1,
        (processConfigs env f t out rest).2) ∧
      (rest = [] →
        (processConfigs env f t out (cfg :: rest)).2 = RunResult.ok) := by
  constructor
  · simp [processConfigs, h1, h2, hopen]
  · intro hrest
    subst hrest
    simp [processConfigs, h1, h2, hopen]

/-- C4 witness: a single device whose test reports the soft failure code
`7` is recorded and the run exits 0. -/
theorem soft_failure_recorded_continues_witness :
    (processConfigs (mkEnv ["A"] [] true)
          (fun _ =>
            { retcode := some 7, backtrace := none, results := none,
              payload := "soft" })
          "t" "/dev/fd/1" [AvaConfig.init (mkEnv ["A"] [] true) optsBase] =
        (Event.runTest "t" ::
            Event.write "/dev/fd/1"
              { retcode := some 7, backtrace := none, results := none,
                payload := "soft" } ::
            (processConfigs (mkEnv ["A"] [] true)
                (fun _ =>
                  { retcode := some 7, backtrace := none, results := none,
                    payload := "soft" })
                "t" "/dev/fd/1" []).1,
          (processConfigs (mkEnv ["A"] [] true)
              (fun _ =>
                { retcode := some 7, backtrace := none, results := none,
                  payload := "soft" })
              "t" "/dev/fd/1" []).2)) ∧
      (processConfigs (mkEnv ["A"] [] true)
          (fun _ =>
            { retcode := some 7, backtrace := none, results := none,
              payload := "soft" })
          "t" "/dev/fd/1" [AvaConfig.init (mkEnv ["A"] [] true) optsBase]).2 =
        RunResult.ok := by
  have h := soft_failure_recorded_continues (mkEnv ["A"] [] true)
    (fun _ =>
      { retcode := some 7, backtrace := none, results := none,
        payload := "soft" })
    "t" "/dev/fd/1" (AvaConfig.init (mkEnv ["A"] [] true) optsBase) [] 7
    (by decide) (by decide) (by decide)
  exact ⟨h.1, h.2 rfl⟩

/-- C9: when the output destination cannot be opened for writing, the
first attempt to serialize an outcome raises `IOError`, which propagates
uncaught out of `main` — the run ends with the `IOError`, not with a
successful exit. -/
theorem ioerror_surfaced (env : Env) (options : Options) (t : String)
    (f : AvaConfig → TestOutcome) (cfg0 : AvaConfig) (rest : List AvaConfig)
    (rc : Int)
    (hTL : options.test_list = false)
    (ht : options.test = some t)
    (hreg : env.avaTests.lookup t = some f)
    (hopen : env.openOk = false)
    (hc : buildConfigs env (resolveOpts options)
        (env.getAllSerials options.android_serial) = cfg0 :: rest)
    (hrc : (f cfg0).retcode = some rc) (hne : rc ≠ -1) :
    (runMain env options).2 = RunResult.ioError ∧
      (runMain env options).2 ≠ RunResult.ok := by
  have hres : (runMain env options).2 =
      (processConfigs env f t ((resolveOpts options).outfile.getD "")
          (buildConfigs env (resolveOpts options)
            (env.getAllSerials options.android_serial))).2 := by
    simp only [runMain, hTL, Bool.false_eq_true, if_false, resolveOpts_test,
      resolveOpts_android_serial, ht, hreg]
  rw [hres, hc]
  constructor
  · simp [processConfigs, hrc, hne, hopen]
  · simp [processConfigs, hrc, hne, hopen]

/-- C9 witness: one device, a successful outcome, destination unopenable:
the run ends with `IOError`. -/
theorem ioerror_surfaced_witness :
    (runMain (mkEnv ["A"] [("t", softBySerial)] false)
          { optsBase with test := some "t" }).2 = RunResult.ioError ∧
      (runMain (mkEnv ["A"] [("t", softBySerial)] false)
          { optsBase with test := some "t" }).2 ≠ RunResult.ok :=
  ioerror_surfaced (mkEnv ["A"] [("t", softBySerial)] false)
    { optsBase with test := some "t" } "t" softBySerial
    (AvaConfig.init (mkEnv ["A"] [("t", softBySerial)] false)
      (replace_serial (resolveOpts { optsBase with test := some "t" }) "A"))
    [] 0 rfl rfl rfl rfl rfl (by decide) (by decide)

/-- C10: the loop indexes `results_dict["retcode"]` unconditionally, and
on a fatal outcome also indexes `result["retcode"]` of every nested
sub-result it inspects: an outcome whose dict lacks `"retcode"`, or a
fatal outcome one of whose nested sub-results lacks `"retcode"`, makes the
run die with an uncaught `KeyError` instead of any defined report
action. -/
theorem retcode_indexed_unconditionally (env : Env)
    (f : AvaConfig → TestOutcome) (t out : String) (cfg : AvaConfig)
    (rest : List AvaConfig) :
    ((f cfg).retcode = none →
        (processConfigs env f t out (cfg :: rest)).2 = RunResult.keyError) ∧
      (∀ rs, (f cfg).retcode = some (-1) → (f cfg).results = some rs →
        (∃ r ∈ rs, r.retcode = none) →
        (processConfigs env f t out (cfg :: rest)).2 = RunResult.keyError) := by
  constructor
  · intro h
    simp [processConfigs, h]
  · intro rs h1 h2 h3
    have herr := printFailingSubs_missing_key rs h3
    have hfr : (fatalReport (f cfg)).2 = RunResult.keyError := by
      unfold fatalReport
      rw [h2]
      simp [herr]
    simp [processConfigs, h1, hfr]

/-- C10 witness: a top-level dict missing `"retcode"`, and a fatal dict
with one nested sub-result missing `"retcode"`, each end in `KeyError`. -/
theorem retcode_indexed_unconditionally_witness :
    (processConfigs (mkEnv ["A"] [] true)
          (fun _ =>
            { retcode := none, backtrace := none, results := none,
              payload := "nk" })
          "t" "/dev/fd/1" [AvaConfig.init (mkEnv ["A"] [] true) optsBase]).2 =
        RunResult.keyError ∧
      (processConfigs (mkEnv ["A"] [] true)
          (fun _ =>
            { retcode := some (-1), backtrace := none,
              results := some [{ retcode := none, payload := "sub" }],
              payload := "nk2" })
          "t" "/dev/fd/1" [AvaConfig.init (mkEnv ["A"] [] true) optsBase]).2 =
        RunResult.keyError :=
  ⟨(retcode_indexed_unconditionally (mkEnv ["A"] [] true) _ "t" "/dev/fd/1"
      (AvaConfig.init (mkEnv ["A"] [] true) optsBase) []).1 rfl,
    (retcode_indexed_unconditionally (mkEnv ["A"] [] true) _ "t" "/dev/fd/1"
        (AvaConfig.init (mkEnv ["A"] [] true) optsBase) []).2
      [{ retcode := none, payload := "sub" }] rfl rfl
      ⟨{ retcode := none, payload := "sub" }, by decide, rfl⟩⟩

/-- C1 (amended): an unregistered test name makes the run fail with the
unknown-test assertion before any test invocation: no test function is
invoked and no `TestOutcome` is produced or written.  (Device enumeration
and per-device config building do happen first; see the
counterexample.) -/
theorem unknown_test_aborts_before_invocation (env : Env) (options : Options)
    (t : String) (hTL : options.test_list = false) (ht : options.test = some t)
    (hreg : env.avaTests.lookup t = none) :
    (runMain env options).2 = RunResult.assertionError t ∧
      (∀ n, Event.runTest n ∉ (runMain env options).1) ∧
      (∀ d o, Event.write d o ∉ (runMain env options).1) := by
  rw [runMain_unknown_test env options t hTL ht hreg]
  exact ⟨rfl, fun n => preTrace_no_runTest env options n,
    fun d o => preTrace_no_write env options d o⟩

/-- C1 (amended) witness: one device `"A"`, empty registry, requested test
`"zzz"`. -/
theorem unknown_test_aborts_before_invocation_witness :
    (runMain (mkEnv ["A"] [] true) { optsBase with test := some "zzz" }).2 =
        RunResult.assertionError "zzz" ∧
      (∀ n, Event.runTest n ∉
        (runMain (mkEnv ["A"] [] true) { optsBase with test := some "zzz" }).1) ∧
      (∀ d o, Event.write d o ∉
        (runMain (mkEnv ["A"] [] true) { optsBase with test := some "zzz" }).1) :=
  unknown_test_aborts_before_invocation (mkEnv ["A"] [] true)
    { optsBase with test := some "zzz" } "zzz" rfl rfl rfl

/-- C1 counterexample: with one connected device and an unregistered test
name, the run does abort with the unknown-test error, but only after the
per-device config for device `"A"` has been built (the `buildConfig "A"`
event, i.e. the `AvaConfig` construction with its `get_android_serial`
call, is in the trace): contrary to the claim, device iteration and
per-device work do occur before the check. -/
theorem unknown_test_config_built_counterexample :
    (runMain (mkEnv ["A"] [] true) { optsBase with test := some "zzz" }).2 =
        RunResult.assertionError "zzz" ∧
      Event.buildConfig "A" ∈
        (runMain (mkEnv ["A"] [] true) { optsBase with test := some "zzz" }).1 := by
  decide

/-- C6 (amended): a run that discovers zero devices reports the
`"No connected devices"` condition, builds zero configs, invokes zero
tests, writes nothing, and exits with status 0 — provided the selected
test name, if any, is registered (an unregistered test name still fails
the assertion, see the counterexample). -/
theorem empty_device_set_ok (env : Env) (options : Options)
    (hTL : options.test_list = false)
    (hdev : env.getAllSerials options.android_serial = [])
    (hreg : ∀ t, options.test = some t → (env.avaTests.lookup t).isSome = true) :
    Event.noDevices ∈ (runMain env options).1 ∧
      (∀ s, Event.buildConfig s ∉ (runMain env options).1) ∧
      (∀ n, Event.runTest n ∉ (runMain env options).1) ∧
      (∀ d o, Event.write d o ∉ (runMain env options).1) ∧
      (runMain env options).2 = RunResult.ok := by
  have hpre : preTrace env options =
      (if options.debug > 0 then [Event.debugPrint] else []) ++
        [Event.noDevices] := by
    simp [preTrace, hdev]
  have hmem : Event.noDevices ∈ preTrace env options := by
    rw [hpre]
    exact List.mem_append_right _ (List.mem_singleton.mpr rfl)
  have hnb : ∀ s, Event.buildConfig s ∉ preTrace env options := by
    intro s hs
    rw [hpre] at hs
    rcases List.mem_append.mp hs with h | h
    · split at h <;> simp at h
    · simp at h
  cases ht : options.test with
  | none =>
    rw [runMain_no_test env options hTL ht]
    exact ⟨hmem, hnb, fun n => preTrace_no_runTest env options n,
      fun d o => preTrace_no_write env options d o, rfl⟩
  | some t =>
    obtain ⟨f, hf⟩ := Option.isSome_iff_exists.mp (hreg t ht)
    rw [runMain_known_test env options t f hTL ht hf]
    have hcfg : buildConfigs env (resolveOpts options)
        (env.getAllSerials options.android_serial) = [] := by
      rw [hdev]; rfl
    rw [hcfg]
    refine ⟨List.mem_append_left _ hmem, ?_, ?_, ?_, rfl⟩
    · intro s hs
      rcases List.mem_append.mp hs with h | h
      · exact hnb s h
      · simp [processConfigs] at h
    · intro n hn
      rcases List.mem_append.mp hn with h | h
      · exact preTrace_no_runTest env options n h
      · simp [processConfigs] at h
    · intro d o ho
      rcases List.mem_append.mp ho with h | h
      · exact preTrace_no_write env options d o h
      · simp [processConfigs] at h

/-- C6 (amended) witness: zero devices, registered test `"t"`. -/
theorem empty_device_set_ok_witness :
    Event.noDevices ∈
        (runMain (mkEnv [] [("t", softBySerial)] true)
          { optsBase with test := some "t" }).1 ∧
      (∀ s, Event.buildConfig s ∉
        (runMain (mkEnv [] [("t", softBySerial)] true)
          { optsBase with test := some "t" }).1) ∧
      (∀ n, Event.runTest n ∉
        (runMain (mkEnv [] [("t", softBySerial)] true)
          { optsBase with test := some "t" }).1) ∧
      (∀ d o, Event.write d o ∉
        (runMain (mkEnv [] [("t", softBySerial)] true)
          { optsBase with test := some "t" }).1) ∧
      (runMain (mkEnv [] [("t", softBySerial)] true)
          { optsBase with test := some "t" }).2 = RunResult.ok :=
  empty_device_set_ok (mkEnv [] [("t", softBySerial)] true)
    { optsBase with test := some "t" } rfl rfl
    (fun t ht => by
      cases ht
      rfl)

/-- C6 counterexample: a run that discovers zero devices but names an
unregistered test does not exit 0 — the unknown-test assertion fires, so
"every zero-device run exits with status 0" is false as stated. -/
theorem empty_devices_nonzero_exit_counterexample :
    (mkEnv [] [] true).getAllSerials
        ({ optsBase with test := some "zzz" } : Options).android_serial = [] ∧
      (runMain (mkEnv [] [] true) { optsBase with test := some "zzz" }).2 ≠
        RunResult.ok := by
  decide

/-- C2 counterexample: devices `["A", "B"]` and a test fatal on `"A"` (the
first device).  The run halts with the fatal nonzero exit and invokes the
test exactly once (never for `"B"`), but the config for device `"B"` has
already been built — `buildConfig "B"` is in the trace — refuting "halts
before the config for device i+1 is built": all configs are built up
front, before the loop starts. -/
theorem fatal_halt_config_already_built_counterexample :
    (runMain (mkEnv ["A", "B"] [("t", fatalOnA)] true)
          { optsBase with test := some "t" }).2 = RunResult.exitFatal ∧
      Event.buildConfig "B" ∈
        (runMain (mkEnv ["A", "B"] [("t", fatalOnA)] true)
          { optsBase with test := some "t" }).1 ∧
      ((runMain (mkEnv ["A", "B"] [("t", fatalOnA)] true)
          { optsBase with test := some "t" }).1.count (Event.runTest "t")) = 1 := by
  decide

/-- Every device whose outcome avoids the fatal sentinel is processed:
the loop ends in exit 0 and writes exactly one outcome per config, in
order. -/
theorem processConfigs_all_soft (env : Env) (f : AvaConfig → TestOutcome)
    (t out : String) (hopen : env.openOk = true) :
    ∀ cfgs : List AvaConfig,
      (∀ cfg ∈ cfgs, ∃ rc, (f cfg).retcode = some rc ∧ rc ≠ -1) →
      (processConfigs env f t out cfgs).2 = RunResult.ok ∧
        writtenOutcomes (processConfigs env f t out cfgs).1 = cfgs.map f
  | [], _ => ⟨rfl, rfl⟩
  | cfg :: rest, h => by
    obtain ⟨rc, hrc, hne⟩ := h cfg (List.mem_cons_self cfg rest)
    have ih := processConfigs_all_soft env f t out hopen rest
      (fun x hx => h x (List.mem_cons_of_mem cfg hx))
    simp [processConfigs, hrc, hne, hopen, writtenOutcomes, ih.1, ih.2]

/-- C7 (amended): with a registered test and no fatal sentinel, the run
produces exactly one outcome per enumerated device, in enumeration order,
and exits 0; each outcome is serialized individually to the output
destination as it is produced, each write truncating the destination, so
on completion the destination holds only the last device's outcome — the
aggregate of all N outcomes is never written as a whole. -/
theorem per_device_outcomes_written (env : Env) (options : Options)
    (t : String) (f : AvaConfig → TestOutcome)
    (hTL : options.test_list = false) (ht : options.test = some t)
    (hreg : env.avaTests.lookup t = some f) (hopen : env.openOk = true)
    (hsoft : ∀ cfg ∈ buildConfigs env (resolveOpts options)
        (env.getAllSerials options.android_serial),
      ∃ rc, (f cfg).retcode = some rc ∧ rc ≠ -1) :
    (runMain env options).2 = RunResult.ok ∧
      writtenOutcomes (runMain env options).1 =
        (buildConfigs env (resolveOpts options)
          (env.getAllSerials options.android_serial)).map f ∧
      (buildConfigs env (resolveOpts options)
          (env.getAllSerials options.android_serial)).length =
        (env.getAllSerials options.android_serial).length ∧
      finalFileContent (runMain env options).1 =
        ((buildConfigs env (resolveOpts options)
          (env.getAllSerials options.android_serial)).map f).getLast? := by
  rw [runMain_known_test env options t f hTL ht hreg]
  have hloop := processConfigs_all_soft env f t (resolveOutfile options.outfile)
    hopen
    (buildConfigs env (resolveOpts options)
      (env.getAllSerials options.android_serial)) hsoft
  have hw : writtenOutcomes
      (preTrace env options ++
        (processConfigs env f t (resolveOutfile options.outfile)
          (buildConfigs env (resolveOpts options)
            (env.getAllSerials options.android_serial))).1) =
      (buildConfigs env (resolveOpts options)
        (env.getAllSerials options.android_serial)).map f := by
    rw [writtenOutcomes_append, preTrace_written, List.nil_append, hloop.2]
  refine ⟨hloop.1, hw, ?_, ?_⟩
  · simp [buildConfigs]
  · rw [finalFileContent, hw]

/-- C7 (amended) witness: two devices with distinct successful outcomes. -/
theorem per_device_outcomes_written_witness :
    (runMain (mkEnv ["A", "B"] [("t", softBySerial)] true)
          { optsBase with test := some "t" }).2 = RunResult.ok ∧
      writtenOutcomes
          (runMain (mkEnv ["A", "B"] [("t", softBySerial)] true)
            { optsBase with test := some "t" }).1 =
        (buildConfigs (mkEnv ["A", "B"] [("t", softBySerial)] true)
          (resolveOpts { optsBase with test := some "t" })
          ((mkEnv ["A", "B"] [("t", softBySerial)] true).getAllSerials
            ({ optsBase with test := some "t" } : Options).android_serial)).map
          softBySerial ∧
      (buildConfigs (mkEnv ["A", "B"] [("t", softBySerial)] true)
          (resolveOpts { optsBase with test := some "t" })
          ((mkEnv ["A", "B"] [("t", softBySerial)] true).getAllSerials
            ({ optsBase with test := some "t" } : Options).android_serial)).length =
        ((mkEnv ["A", "B"] [("t", softBySerial)] true).getAllSerials
          ({ optsBase with test := some "t" } : Options).android_serial).length ∧
      finalFileContent
          (runMain (mkEnv ["A", "B"] [("t", softBySerial)] true)
            { optsBase with test := some "t" }).1 =
        ((buildConfigs (mkEnv ["A", "B"] [("t", softBySerial)] true)
          (resolveOpts { optsBase with test := some "t" })
          ((mkEnv ["A", "B"] [("t", softBySerial)] true).getAllSerials
            ({ optsBase with test := some "t" } : Options).android_serial)).map
          softBySerial).getLast? :=
  per_device_outcomes_written (mkEnv ["A", "B"] [("t", softBySerial)] true)
    { optsBase with test := some "t" } "t" softBySerial rfl rfl rfl rfl
    (by decide)

/-- C7 counterexample: two devices, both tests successful with distinct
outcomes.  Two outcomes are produced and written, but after the run the
output destination holds only the second outcome — each `open(..., "w")`
truncated the file — so the aggregated result containing all N outcomes
is never serialized to the destination. -/
theorem aggregate_not_serialized_counterexample :
    (runMain (mkEnv ["A", "B"] [("t", softBySerial)] true)
          { optsBase with test := some "t" }).2 = RunResult.ok ∧
      writtenOutcomes
          (runMain (mkEnv ["A", "B"] [("t", softBySerial)] true)
            { optsBase with test := some "t" }).1 =
        [softOutcome "A", softOutcome "B"] ∧
      finalFileContent
          (runMain (mkEnv ["A", "B"] [("t", softBySerial)] true)
            { optsBase with test := some "t" }).1 = some (softOutcome "B") ∧
      softOutcome "A" ≠ softOutcome "B" := by
  decide

/-- C8: the pipeline does not branch on the dry-run flag: device
enumeration and per-device config building happen regardless of its
value — one config per enumerated device, each construction visible as a
`buildConfig` event in the run's trace — and the flag is copied unchanged
into every `AvaConfig` handed to the per-device loop. -/
theorem dry_run_propagated (env : Env) (options : Options)
    (hTL : options.test_list = false) :
    (buildConfigs env (resolveOpts options)
        (env.getAllSerials options.android_serial)).length =
      (env.getAllSerials options.android_serial).length ∧
      (∀ cfg ∈ buildConfigs env (resolveOpts options)
          (env.getAllSerials options.android_serial),
        cfg.dry_run = options.dry_run) ∧
      (∀ s ∈ env.getAllSerials options.android_serial,
        Event.buildConfig s ∈ (runMain env options).1) := by
  refine ⟨by simp [buildConfigs], ?_, ?_⟩
  · intro cfg hcfg
    obtain ⟨s, _, rfl⟩ := List.mem_map.mp hcfg
    rfl
  · intro s hs
    have hpre := preTrace_buildConfig_mem env options s hs
    cases ht : options.test with
    | none =>
      rw [runMain_no_test env options hTL ht]
      exact hpre
    | some t =>
      cases hreg : env.avaTests.lookup t with
      | none =>
        rw [runMain_unknown_test env options t hTL ht hreg]
        exact hpre
      | some f =>
        rw [runMain_known_test env options t f hTL ht hreg]
        exact List.mem_append_left _ hpre

/-- C8 witness: a dry-run over two devices with a registered test. -/
theorem dry_run_propagated_witness :
    (buildConfigs (mkEnv ["A", "B"] [("t", softBySerial)] true)
        (resolveOpts { optsBase with dry_run := true, test := some "t" })
        ((mkEnv ["A", "B"] [("t", softBySerial)] true).getAllSerials
          ({ optsBase with dry_run := true, test := some "t" } :
            Options).android_serial)).length =
      ((mkEnv ["A", "B"] [("t", softBySerial)] true).getAllSerials
        ({ optsBase with dry_run := true, test := some "t" } :
          Options).android_serial).length ∧
      (∀ cfg ∈ buildConfigs (mkEnv ["A", "B"] [("t", softBySerial)] true)
          (resolveOpts { optsBase with dry_run := true, test := some "t" })
          ((mkEnv ["A", "B"] [("t", softBySerial)] true).getAllSerials
            ({ optsBase with dry_run := true, test := some "t" } :
              Options).android_serial),
        cfg.dry_run =
          ({ optsBase with dry_run := true, test := some "t" } :
            Options).dry_run) ∧
      (∀ s ∈ (mkEnv ["A", "B"] [("t", softBySerial)] true).getAllSerials
          ({ optsBase with dry_run := true, test := some "t" } :
            Options).android_serial,
        Event.buildConfig s ∈
          (runMain (mkEnv ["A", "B"] [("t", softBySerial)] true)
            { optsBase with dry_run := true, test := some "t" }).1) :=
  dry_run_propagated (mkEnv ["A", "B"] [("t", softBySerial)] true)
    { optsBase with dry_run := true, test := some "t" } rfl

/-- C5: cloning a base option set for two distinct serials through
`replace_serial` yields two configs agreeing on every field except the
serial; their list-typed field lives in two fresh cells, distinct from
each other and from the base's cell, holding the same content as the
base's list; and mutating one clone's list afterwards leaves the other
clone's list and the base's list unchanged (the deep-copy, no-aliasing
property of `copy.deepcopy`). -/
theorem replace_serial_deepcopy_independent (st : Store) (o : OptionsRef)
    (a : Nat) (s1 s2 : String) (st1 st2 : Store) (c1 c2 : OptionsRef)
    (ha : o.infile_ref = some a) (hlt : a < st.cells.length) (hne : s1 ≠ s2)
    (h1 : replaceSerialRef st o s1 = (st1, c1))
    (h2 : replaceSerialRef st1 o s2 = (st2, c2)) :
    c1.android_serial = some s1 ∧ c2.android_serial = some s2 ∧
      c1.android_serial ≠ c2.android_serial ∧
      c1.debug = c2.debug ∧ c1.dry_run = c2.dry_run ∧
      c1.encoder = c2.encoder ∧ c1.test = c2.test ∧
      c1.test_list = c2.test_list ∧ c1.outfile = c2.outfile ∧
      ∃ a1 a2, c1.infile_ref = some a1 ∧ c2.infile_ref = some a2 ∧
        a1 ≠ a2 ∧ a1 ≠ a ∧ a2 ≠ a ∧
        st2.read a1 = st.read a ∧ st2.read a2 = st.read a ∧
        ∀ v, (st2.mutate a1 v).read a2 = st2.read a2 ∧
          (st2.mutate a1 v).read a = st.read a ∧
          (st2.mutate a2 v).read a1 = st2.read a1 := by
  have e1 : replaceSerialRef st o s1 =
      ({ cells := st.cells ++ [st.read a] },
        { o with infile_ref := some st.cells.length,
                 android_serial := some s1 }) := by
    simp [replaceSerialRef, deepcopyOptions, ha, Store.alloc]
  rw [e1] at h1
  injection h1 with hst1 hc1
  subst hst1
  subst hc1
  have hread1 : Store.read { cells := st.cells ++ [st.read a] } a =
      st.read a := by
    show (st.cells ++ [st.read a]).getD a [] = st.read a
    rw [getD_append_left st.cells [st.read a] a [] hlt]
    rfl
  have e2 : replaceSerialRef { cells := st.cells ++ [st.read a] } o s2 =
      ({ cells := (st.cells ++ [st.read a]) ++ [st.read a] },
        { o with infile_ref := some (st.cells ++ [st.read a]).length,
                 android_serial := some s2 }) := by
    simp only [replaceSerialRef, deepcopyOptions, ha, Store.alloc, hread1]
  rw [e2] at h2
  injection h2 with hst2 hc2
  subst hst2
  subst hc2
  have hlen : (st.cells ++ [st.read a]).length = st.cells.length + 1 := by
    simp
  have hne1a : st.cells.length ≠ a := Nat.ne_of_gt hlt
  have hne2a : (st.cells ++ [st.read a]).length ≠ a := by
    rw [hlen]
    exact Nat.ne_of_gt (Nat.lt_succ_of_lt hlt)
  have hne12 : st.cells.length ≠ (st.cells ++ [st.read a]).length := by
    rw [hlen]
    exact Nat.ne_of_lt (Nat.lt_succ_self _)
  have hr1 : Store.read
      { cells := (st.cells ++ [st.read a]) ++ [st.read a] }
      st.cells.length = st.read a := by
    show ((st.cells ++ [st.read a]) ++ [st.read a]).getD st.cells.length [] =
      st.read a
    rw [getD_append_left (st.cells ++ [st.read a]) [st.read a]
      st.cells.length [] (by rw [hlen]; exact Nat.lt_succ_self _)]
    exact getD_concat_self st.cells (st.read a) []
  have hr2 : Store.read
      { cells := (st.cells ++ [st.read a]) ++ [st.read a] }
      (st.cells ++ [st.read a]).length = st.read a :=
    getD_concat_self (st.cells ++ [st.read a]) (st.read a) []
  have hra : Store.read
      { cells := (st.cells ++ [st.read a]) ++ [st.read a] } a =
      st.read a := by
    show ((st.cells ++ [st.read a]) ++ [st.read a]).getD a [] = st.read a
    rw [getD_append_left (st.cells ++ [st.read a]) [st.read a] a []
      (by rw [hlen]; exact Nat.lt_succ_of_lt hlt)]
    exact hread1
  refine ⟨rfl, rfl, by simpa using hne, rfl, rfl, rfl, rfl, rfl, rfl,
    st.cells.length, (st.cells ++ [st.read a]).length, rfl, rfl,
    hne12, hne1a, hne2a, hr1, hr2, ?_⟩
  intro v
  refine ⟨?_, ?_, ?_⟩
  · show (((st.cells ++ [st.read a]) ++ [st.read a]).set st.cells.length
        v).getD (st.cells ++ [st.read a]).length [] =
      ((st.cells ++ [st.read a]) ++ [st.read a]).getD
        (st.cells ++ [st.read a]).length []
    exact getD_set_ne _ _ _ v [] hne12
  · show (((st.cells ++ [st.read a]) ++ [st.read a]).set st.cells.length
        v).getD a [] = st.read a
    rw [getD_set_ne _ _ _ v [] hne1a]
    exact hra
  · show (((st.cells ++ [st.read a]) ++ [st.read a]).set
        (st.cells ++ [st.read a]).length v).getD st.cells.length [] =
      ((st.cells ++ [st.read a]) ++ [st.read a]).getD st.cells.length []
    exact getD_set_ne _ _ _ v [] (Ne.symm hne12)

/-- A one-cell concrete store. -/
def stW : Store := { cells := [["f1"]] }

/-- A concrete base option set referencing `stW`'s only cell. -/
def oW : OptionsRef :=
  { debug := 0, dry_run := false, android_serial := none, encoder := none,
    test := some "t", test_list := false, infile_ref := some 0,
    outfile := none }

/-- Store after cloning `oW` for serial `"A"`. -/
def stW1 : Store := (replaceSerialRef stW oW "A").1

/-- The clone of `oW` for serial `"A"`. -/
def cW1 : OptionsRef := (replaceSerialRef stW oW "A").2

/-- Store after additionally cloning `oW` for serial `"B"`. -/
def stW2 : Store := (replaceSerialRef stW1 oW "B").1

/-- The clone of `oW` for serial `"B"`. -/
def cW2 : OptionsRef := (replaceSerialRef stW1 oW "B").2

/-- C5 witness: a one-cell store, a base option set referencing it, and
the serials `"A"` and `"B"`. -/
theorem replace_serial_deepcopy_independent_witness :
    cW1.android_serial = some "A" ∧ cW2.android_serial = some "B" ∧
      cW1.android_serial ≠ cW2.android_serial ∧
      cW1.debug = cW2.debug ∧ cW1.dry_run = cW2.dry_run ∧
      cW1.encoder = cW2.encoder ∧ cW1.test = cW2.test ∧
      cW1.test_list = cW2.test_list ∧ cW1.outfile = cW2.outfile ∧
      ∃ a1 a2, cW1.infile_ref = some a1 ∧ cW2.infile_ref = some a2 ∧
        a1 ≠ a2 ∧ a1 ≠ 0 ∧ a2 ≠ 0 ∧
        stW2.read a1 = stW.read 0 ∧ stW2.read a2 = stW.read 0 ∧
        ∀ v, (stW2.mutate a1 v).read a2 = stW2.read a2 ∧
          (stW2.mutate a1 v).read 0 = stW.read 0 ∧
          (stW2.mutate a2 v).read a1 = stW2.read a1 :=
  replace_serial_deepcopy_independent stW oW 0 "A" "B" stW1 stW2 cW1 cW2
    rfl (by decide) (by decide) rfl rfl
